import Mathlib

/-!
Verification of `src/magnetoelectric_meas.py` against its specification.

The script is embedded shallowly: the pure helper functions (`sine`, `square`,
`reading_period`'s statistic) become Lean functions on `ℝ`; the measurement
loop in `main` becomes a recursive function over a list of per-iteration
instrument responses, threading the accumulated data rows, the command trace
sent to the CPX voltage source, and an observation trace recording the order
of instrument operations.  Instrument I/O (`read_latest`, `read_channel_temp`,
`get_voltage`, `get_current`) is external to the repository; following the
spec's capability contracts, `read_latest` yields a `(current, relative
timestamp)` pair and the other reads yield one real each, all supplied by the
per-iteration input record.  A failing current-sensor read is modelled as the
`sensorFail` event, which aborts the iteration exactly where line 146 of the
script would raise.
-/

noncomputable section

/-- Python's `list.insert(i, x)`: insert before index `i`, appending when
`i ≥ length` (lines 149–152 of the script rely on this semantics). -/
def pyInsert {α : Type} (l : List α) (i : ℕ) (x : α) : List α :=
  l.take i ++ x :: l.drop i

/-- Python's `round(x, 3)` on reals: round `x` to 3 decimal places.  Tie
values (exact half-thousandths) round half-up here while CPython rounds
half-to-even; no theorem below depends on tie behaviour. -/
def round3 (x : ℝ) : ℝ :=
  (round (x * 1000) : ℤ) / 1000

/-- Lines 111–112: `sine(tdelta, frequency, amplitude, slope, offset)`. -/
def sine (tdelta frequency amplitude slope offset : ℝ) : ℝ :=
  amplitude * Real.sin (2 * Real.pi * frequency * tdelta) + slope * tdelta + offset

/-- Lines 113–119: `square(tdelta, frequency, amplitude)` — 0 when the
3-decimal rounding of the unit sine is `≤ 0`, else `amplitude`. -/
def square (tdelta frequency amplitude : ℝ) : ℝ :=
  if round3 (sine tdelta frequency 1 0 0) ≤ 0 then 0 else amplitude

/-- Line 121: the list of differences `df[c][i-1] - df[c][i]`. -/
def timedeltas : List ℝ → List ℝ
  | a :: b :: rest => (a - b) :: timedeltas (b :: rest)
  | _ => []

/-- Line 122: the sampling statistic `abs(sum(timedeltas))/len(timedeltas)`
printed by `reading_period` (scaled to ms only at the print). -/
def sampling_rate (times : List ℝ) : ℝ :=
  |(timedeltas times).sum| / (timedeltas times).length

/-- Modelled from the spec's words "mean absolute sampling period = average of
successive timestamp differences" read as the mean of the absolute successive
differences; kept separate from `sampling_rate` (the code's statistic) so the
two can be compared. -/
def meanAbsSuccDiff (times : List ℝ) : ℝ :=
  ((timedeltas times).map (fun d => |d|)).sum / (timedeltas times).length

/-- Errors that abort a run of `main`: a current-sensor I/O failure at line
146, the safety assert of line 160, or the `ZeroDivisionError` that
`reading_period` (line 122) raises at line 188 when the exported table has
fewer than two rows and `len(timedeltas)` is 0. -/
inductive RunError
  | sensorIOError
  | safetyAssert
  | statsZeroDiv
deriving DecidableEq

/-- Line 160 as a standalone validation: the setpoint is accepted (and passed
through unchanged to `cpx.set_voltage`) exactly when
`cpx_target_voltage <= volt_ampl`; otherwise the assert raises. -/
def validateSetpoint (candidate ceiling : ℝ) : Except RunError ℝ :=
  if candidate ≤ ceiling then .ok candidate else .error .safetyAssert

-- Basic facts about the waveform ------------------------------------------

lemma round3_zero : round3 0 = 0 := by
  simp [round3]

lemma square_cases (t f A : ℝ) : square t f A = 0 ∨ square t f A = A := by
  unfold square
  split
  · exact Or.inl rfl
  · exact Or.inr rfl

lemma square_le (t f A : ℝ) (h : 0 ≤ A) : square t f A ≤ A := by
  rcases square_cases t f A with h0 | hA
  · rw [h0]; exact h
  · rw [hA]

lemma square_nonneg (t f A : ℝ) (h : 0 ≤ A) : 0 ≤ square t f A := by
  rcases square_cases t f A with h0 | hA
  · rw [h0]
  · rw [hA]; exact h

lemma square_abs_le (t f A : ℝ) (h0 : 0 ≤ A) (h23 : A ≤ 23) :
    |square t f A| ≤ 23 := by
  rw [abs_of_nonneg (square_nonneg t f A h0)]
  exact le_trans (square_le t f A h0) h23

lemma sine_zero (f : ℝ) : sine 0 f 1 0 0 = 0 := by
  simp [sine]

lemma square_tdelta_zero (f A : ℝ) : square 0 f A = 0 := by
  unfold square
  rw [sine_zero, round3_zero, if_pos le_rfl]

/-- Claim C6: `square(t, f, A)` equals 0 when `round(sine(t, f, 1, 0, 0), 3)`
is `≤ 0` and equals `A` otherwise, hence its value always lies in `{0, A}`.
Totality over the real domain and absence of side effects hold by
construction: `square` is a total Lean function. -/
theorem c6_square_binary (t f A : ℝ) :
    square t f A = (if round3 (sine t f 1 0 0) ≤ 0 then 0 else A) ∧
      (square t f A = 0 ∨ square t f A = A) :=
  ⟨rfl, square_cases t f A⟩

-- C4: the safety validation -------------------------------------------------

/-- Claim C4 counterexample: the candidate `-25` has absolute value above the
ceiling `23`, yet the code's validation (line 160, `candidate <= ceiling`)
accepts it unchanged; the claimed rejection of every candidate with
`|candidate| > ceiling` is false. -/
theorem c4_counterexample :
    validateSetpoint (-25) 23 = .ok (-25) ∧ (23 : ℝ) < |(-25 : ℝ)| := by
  constructor
  · unfold validateSetpoint
    rw [if_pos (by norm_num)]
  · norm_num

/-- Claim C4 (amended): the per-iteration validation fails fatally exactly for
candidates with `candidate > ceiling` (signed comparison, no absolute value);
every candidate with `candidate ≤ ceiling` — including arbitrarily negative
ones — is passed through unchanged to the voltage-source set-command. -/
theorem c4_validate_amended (c ceil : ℝ) :
    (c ≤ ceil → validateSetpoint c ceil = .ok c) ∧
      (ceil < c → validateSetpoint c ceil = .error .safetyAssert) := by
  constructor
  · intro h
    unfold validateSetpoint
    rw [if_pos h]
  · intro h
    unfold validateSetpoint
    rw [if_neg (not_le.mpr h)]

/-- Concrete instances of the amended C4 statement. -/
theorem c4_validate_amended_witness :
    validateSetpoint 5 23 = .ok 5 ∧
      validateSetpoint 24 23 = .error .safetyAssert :=
  ⟨(c4_validate_amended 5 23).1 (by norm_num),
   (c4_validate_amended 24 23).2 (by norm_num)⟩

-- C9: the sampling-period statistic -----------------------------------------

lemma timedeltas_nonpos :
    ∀ l : List ℝ, l.Chain' (· ≤ ·) → ∀ d ∈ timedeltas l, d ≤ 0
  | [], _, d, hd => by simp [timedeltas] at hd
  | [_], _, d, hd => by simp [timedeltas] at hd
  | a :: b :: rest, h, d, hd => by
    rw [timedeltas] at hd
    rcases List.mem_cons.mp hd with h1 | h2
    · have hab : a ≤ b := (List.chain'_cons.mp h).1
      rw [h1]
      linarith
    · exact timedeltas_nonpos (b :: rest) (List.chain'_cons.mp h).2 d h2

lemma list_sum_nonpos :
    ∀ L : List ℝ, (∀ x ∈ L, x ≤ 0) → L.sum ≤ 0
  | [], _ => by simp
  | a :: L, h => by
    have ha : a ≤ 0 := h a (List.mem_cons_self a L)
    have hL : L.sum ≤ 0 :=
      list_sum_nonpos L (fun x hx => h x (List.mem_cons_of_mem a hx))
    rw [List.sum_cons]
    linarith

lemma abs_sum_of_nonpos :
    ∀ L : List ℝ, (∀ x ∈ L, x ≤ 0) → |L.sum| = (L.map (fun d => |d|)).sum
  | [], _ => by simp
  | a :: L, h => by
    have ha : a ≤ 0 := h a (List.mem_cons_self a L)
    have hL : ∀ x ∈ L, x ≤ 0 := fun x hx => h x (List.mem_cons_of_mem a hx)
    have hsum : L.sum ≤ 0 := list_sum_nonpos L hL
    rw [List.sum_cons, List.map_cons, List.sum_cons,
      abs_of_nonpos (by linarith), abs_of_nonpos ha,
      ← abs_sum_of_nonpos L hL, abs_of_nonpos hsum]
    ring

/-- Claim C9 counterexample: on the time column `[0, 1, 0]` the code's
statistic is `|(0-1)+(1-0)|/2 = 0`, while the mean of the absolute successive
differences is `1`; the two characterizations the claim conjoins disagree on
non-monotone columns. -/
theorem c9_counterexample :
    sampling_rate [0, 1, 0] = 0 ∧ meanAbsSuccDiff [0, 1, 0] = 1 := by
  constructor
  · norm_num [sampling_rate, timedeltas]
  · norm_num [meanAbsSuccDiff, timedeltas]

/-- Claim C9 (amended): the statistic is `|sum of successive differences|`
divided by the number of differences; it coincides with the mean of the
absolute successive differences whenever the time column is non-decreasing
(successive differences all one sign), and on `[0, 1, 2, 4]` it is `4/3`. -/
theorem c9_sampling_amended :
    (∀ l : List ℝ, l.Chain' (· ≤ ·) → sampling_rate l = meanAbsSuccDiff l) ∧
      sampling_rate [0, 1, 2, 4] = 4 / 3 := by
  constructor
  · intro l hl
    unfold sampling_rate meanAbsSuccDiff
    rw [abs_sum_of_nonpos (timedeltas l) (timedeltas_nonpos l hl)]
  · norm_num [sampling_rate, timedeltas]

/-- The amended C9 statement at the spec's own example column. -/
theorem c9_sampling_amended_witness :
    sampling_rate [0, 1, 2, 4] = meanAbsSuccDiff [0, 1, 2, 4] :=
  c9_sampling_amended.1 [0, 1, 2, 4]
    (by norm_num [List.chain'_cons, List.chain'_singleton])

-- C1: row assembly and the exported column schema ---------------------------

/-- Lines 146–152: the data row for one iteration.  `read_latest` (external;
per the spec's capability contract) yields the two-element reading
`[current, relative_timestamp]`; the script then runs four
`reading.insert(3, ...)` calls with, in order, the parsed `get_current()`
read-back, the parsed `get_voltage()` read-back, the rounded target voltage
and the rounded temperature. -/
def assembleRow (current t osensaTemp target cpxVolt cpxCurr : ℝ) : List ℝ :=
  pyInsert (pyInsert (pyInsert (pyInsert [current, t] 3 cpxCurr) 3 cpxVolt)
    3 (round3 target)) 3 (round3 osensaTemp)

/-- Lines 169–174: the column names assigned positionally to each row. -/
def columnsAssigned : List String :=
  ["current", "time", "osensa_temp", "cpx_target_voltage", "cpx_volt", "cpx_curr"]

/-- Lines 175–180: the column order of the exported table. -/
def exportColumns : List String :=
  ["time", "current", "osensa_temp", "cpx_target_voltage", "cpx_volt", "cpx_curr"]

/-- The exported row: for each export column, the row entry at the position
that column name was assigned to. -/
def exportRow (row : List ℝ) : List ℝ :=
  exportColumns.map (fun c => row.getD (columnsAssigned.indexOf c) 0)

lemma assembleRow_eq (current t osensaTemp target cpxVolt cpxCurr : ℝ) :
    assembleRow current t osensaTemp target cpxVolt cpxCurr =
      [current, t, cpxCurr, round3 osensaTemp, round3 target, cpxVolt] :=
  rfl

lemma round3_one : round3 1 = 1 := by
  norm_num [round3, round_eq]

lemma round3_four : round3 4 = 4 := by
  norm_num [round3, round_eq]

/-- Claim C1: with the iteration inputs current = 10, relative timestamp = 0,
temperature reading = 1, stored target voltage = 4, voltage read-back = 2 and
current read-back = 3, the exported row is `[0, 10, 3, 1, 4, 2]` rather than
the `[0, 10, 1, 4, 2, 3]` the claim requires: the `osensa_temp` column holds
the supply's current read-back, `cpx_target_voltage` holds the temperature,
`cpx_volt` holds the target and `cpx_curr` holds the voltage read-back,
because `reading.insert(3, ...)` appends (rather than inserts) its first two
values into the two-element reading. -/
theorem c1_export_column_mismatch :
    exportRow (assembleRow 10 0 1 4 2 3) = [0, 10, 3, 1, 4, 2] ∧
      exportRow (assembleRow 10 0 1 4 2 3) ≠ [0, 10, 1, 4, 2, 3] := by
  have hrow : assembleRow 10 0 1 4 2 3 = [10, 0, 3, 1, 4, 2] := by
    rw [assembleRow_eq, round3_one, round3_four]
  have hexp : exportRow (assembleRow 10 0 1 4 2 3) = [0, 10, 3, 1, 4, 2] := by
    rw [hrow]
    rfl
  refine ⟨hexp, ?_⟩
  rw [hexp]
  intro h
  have h2 : (3 : ℝ) = 1 := by
    have h3 := congrArg (fun l => l.getD 2 0) h
    simp only [List.getD, List.get?] at h3
    exact h3
  norm_num at h2

-- C8: the electrometer averaging-filter configuration ------------------------

/-- Commands sent to the Keithley 6517 by `setup_keithley` (lines 50–103). -/
inductive KCmd
  | reset
  | clear_reg
  | status_queue_next (s : String)
  | sense_function (s : String)
  | current_range (r : ℝ)
  | system_zcorrect (s : String)
  | system_zcheck (s : String)
  | current_nplcycles (n : ℝ)
  | system_pwrlinesync (s : String)
  | system_tstamp_type (s : String)
  | system_tstamp_relative_reset
  | system_tstamp_format (s : String)
  | current_median_state (s : String)
  | current_median_rank (n : ℕ)
  | current_average_state (s : String)
  | current_average_type (s : String)
  | current_average_tcontrol (s : String)
  | current_average_count (n : ℕ)
  | system_tscontrol (s : String)
  | format_elements (s : String)
  | pyvisa_timeout (n : ℕ)

/-- Lines 50–103: the command sequence `setup_keithley` issues.  The averaging
block (lines 87–92) runs only when `average_window != 0`, and its first
command sets the averaging state to `"OFF"`. -/
def setup_keithley (current_range nplcycles : ℝ) (average_window : ℕ) : List KCmd :=
  [.reset, .clear_reg, .status_queue_next "Reset",
   .sense_function "\x27current\x27", .status_queue_next "Sensing function",
   .current_range 20e-12, .system_zcorrect "ON", .status_queue_next "Zero correct",
   .current_range current_range, .system_zcheck "OFF", .status_queue_next "Current range",
   .current_nplcycles nplcycles, .system_pwrlinesync "OFF",
   .status_queue_next "Integration time",
   .system_tstamp_type "relative", .system_tstamp_relative_reset,
   .system_tstamp_format "absolute", .status_queue_next "Timestamp",
   .current_median_state "ON", .current_median_rank 1,
   .status_queue_next "Median filter"] ++
  (if average_window ≠ 0 then
    [.current_average_state "OFF", .current_average_type "scalar",
     .current_average_tcontrol "repeat", .current_average_count average_window,
     .status_queue_next "Average filter"]
   else []) ++
  [.system_tscontrol "ON", .status_queue_next "External temperature",
   .format_elements "tstamp, reading", .status_queue_next "Data format",
   .pyvisa_timeout 10000]

/-- Does the command list set the averaging-filter state to `s`? -/
def hasAvgState (s : String) (l : List KCmd) : Bool :=
  l.any fun c => match c with
    | .current_average_state t => t == s
    | _ => false

/-- Does the command list set the averaging count to `n`? -/
def hasAvgCount (n : ℕ) (l : List KCmd) : Bool :=
  l.any fun c => match c with
    | .current_average_count m => m == n
    | _ => false

/-- Does the command list touch the averaging filter at all? -/
def hasAvgCmd (l : List KCmd) : Bool :=
  l.any fun c => match c with
    | .current_average_state _ => true
    | .current_average_type _ => true
    | .current_average_tcontrol _ => true
    | .current_average_count _ => true
    | _ => false

/-- Claim C8: for the nonzero window 10 the configuration sets the averaging
count to 10 but commands the averaging state `"OFF"` and never `"ON"` — the
filter is configured yet left disabled, contradicting the claimed (and
clearly intended) enabling; a window of 0 skips the averaging block
entirely. -/
theorem c8_average_never_enabled (r n : ℝ) :
    hasAvgCount 10 (setup_keithley r n 10) = true ∧
      hasAvgState "OFF" (setup_keithley r n 10) = true ∧
      hasAvgState "ON" (setup_keithley r n 10) = false ∧
      hasAvgCmd (setup_keithley r n 0) = false := by
  refine ⟨?_, ?_, ?_, ?_⟩ <;>
    simp [setup_keithley, hasAvgCount, hasAvgState, hasAvgCmd]

-- The measurement loop (lines 126–194) --------------------------------------

/-- The instrument responses consumed by one successful loop iteration:
`read_latest` yields `(current, tdelta)`, `read_channel_temp("A")` yields
`osensa_temp`, and the parsed `get_voltage()` / `get_current()` read-backs
yield `cpx_volt` / `cpx_curr`. -/
structure IterOk where
  current : ℝ
  tdelta : ℝ
  osensa_temp : ℝ
  cpx_volt : ℝ
  cpx_curr : ℝ

/-- One loop iteration's outcome at the instruments: either all reads succeed,
or the current-sensor read at line 146 raises an I/O error. -/
inductive IterEvent
  | ok (v : IterOk)
  | sensorFail

/-- Commands sent to the CPX400SP voltage source. -/
inductive Cmd
  | setOutput (n : ℕ)
  | setCurrent (v : ℝ)
  | setVoltage (v : ℝ)

/-- Observable operations of one loop iteration, in program order. -/
inductive Obs
  | readSensor
  | readTemp
  | readCpxCurr
  | readCpxVolt
  | appendRecord
  | setVoltageCmd

/-- The operations a successful, safety-passing iteration performs, in the
order of lines 146–161: sensor read, temperature read, supply current then
voltage read-back, record append, then the set-voltage command. -/
def okIterObs : List Obs :=
  [.readSensor, .readTemp, .readCpxCurr, .readCpxVolt, .appendRecord, .setVoltageCmd]

/-- The outcome of a run of `main`: the in-memory `data` rows, the command
trace sent to the voltage source, the observation trace, the exported table
(`some` only when the loop completed and line 183 ran), and the error that
unwound out of `main`, if any. -/
structure RunResult where
  data : List (List ℝ)
  cmds : List Cmd
  obs : List Obs
  exported : Option (List (List ℝ))
  error : Option RunError

/-- The exported table's `time` column, the first export column, as accessed
by `reading_period(df, "time")` at line 188. -/
def timeColumn (rows : List (List ℝ)) : List ℝ :=
  rows.map fun r => r.getD 0 0

/-- Lines 144–194: the measurement loop.  The iteration count is driven by the
event list (the wall-clock `while` condition of line 144 determines only how
many iterations run).  A successful iteration assembles and appends its row
from the pre-update `cpx_target_voltage`, computes the next target with
`square`, asserts `target <= volt_ampl` (line 160; on failure the exception
propagates with no further commands) and commands the voltage source.  A
failed sensor read propagates immediately.  On normal loop exit the table is
exported (line 183) and then `reading_period(df, "time")` runs (line 188):
when the table's time column yields no successive differences (fewer than two
rows) its division by `len(timedeltas)` raises `ZeroDivisionError`, so the
shutdown commands of lines 193–194 are skipped; otherwise the statistics
print and the shutdown commands are issued.  No exceptional path reaches the
export or the shutdown, since the script has no `try`/`finally`. -/
def runLoop (volt_ampl volt_freq : ℝ) :
    List IterEvent → ℝ → List (List ℝ) → List Cmd → List Obs → RunResult
  | [], _, data, cmds, obs =>
      if (timedeltas (timeColumn (data.map exportRow))).length = 0 then
        ⟨data, cmds, obs, some (data.map exportRow), some .statsZeroDiv⟩
      else
        ⟨data, cmds ++ [.setVoltage 0, .setOutput 0], obs,
          some (data.map exportRow), none⟩
  | .sensorFail :: _, _, data, cmds, obs =>
      ⟨data, cmds, obs ++ [.readSensor], none, some .sensorIOError⟩
  | .ok v :: rest, cpx_target_voltage, data, cmds, obs =>
      if square v.tdelta volt_freq volt_ampl ≤ volt_ampl then
        runLoop volt_ampl volt_freq rest (square v.tdelta volt_freq volt_ampl)
          (data ++ [assembleRow v.current v.tdelta v.osensa_temp
            cpx_target_voltage v.cpx_volt v.cpx_curr])
          (cmds ++ [.setVoltage (square v.tdelta volt_freq volt_ampl)])
          (obs ++ okIterObs)
      else
        ⟨data ++ [assembleRow v.current v.tdelta v.osensa_temp
            cpx_target_voltage v.cpx_volt v.cpx_curr],
          cmds,
          obs ++ [.readSensor, .readTemp, .readCpxCurr, .readCpxVolt, .appendRecord],
          none, some .safetyAssert⟩

/-- Lines 126–194: a full run.  Setup issues `set_output(1)`,
`set_current(20)`, `set_voltage(0)` (lines 128–130), the target variable
starts at 0 (line 141), and the loop consumes the iteration events. -/
def runMeasurement (volt_ampl volt_freq : ℝ) (events : List IterEvent) : RunResult :=
  runLoop volt_ampl volt_freq events 0 []
    [.setOutput 1, .setCurrent 20, .setVoltage 0] []

lemma runLoop_nil (a f tgt : ℝ) (data : List (List ℝ)) (cmds : List Cmd)
    (obs : List Obs) :
    runLoop a f [] tgt data cmds obs =
      if (timedeltas (timeColumn (data.map exportRow))).length = 0 then
        ⟨data, cmds, obs, some (data.map exportRow), some .statsZeroDiv⟩
      else
        ⟨data, cmds ++ [.setVoltage 0, .setOutput 0], obs,
          some (data.map exportRow), none⟩ :=
  rfl

lemma timedeltas_length :
    ∀ l : List ℝ, (timedeltas l).length = l.length - 1
  | [] => rfl
  | [_] => rfl
  | a :: b :: rest => by
    rw [timedeltas, List.length_cons, timedeltas_length (b :: rest)]
    simp only [List.length_cons]
    omega

lemma statsCond_iff (data : List (List ℝ)) :
    (timedeltas (timeColumn (data.map exportRow))).length = 0 ↔
      data.length ≤ 1 := by
  rw [timedeltas_length]
  unfold timeColumn
  rw [List.length_map, List.length_map]
  omega

lemma runLoop_nil_small (a f tgt : ℝ) (data : List (List ℝ)) (cmds : List Cmd)
    (obs : List Obs) (h : data.length ≤ 1) :
    runLoop a f [] tgt data cmds obs =
      ⟨data, cmds, obs, some (data.map exportRow), some .statsZeroDiv⟩ := by
  rw [runLoop_nil, if_pos ((statsCond_iff data).mpr h)]

lemma runLoop_nil_two (a f tgt : ℝ) (data : List (List ℝ)) (cmds : List Cmd)
    (obs : List Obs) (h : 2 ≤ data.length) :
    runLoop a f [] tgt data cmds obs =
      ⟨data, cmds ++ [.setVoltage 0, .setOutput 0], obs,
        some (data.map exportRow), none⟩ := by
  rw [runLoop_nil, if_neg]
  rw [statsCond_iff]
  omega

lemma runLoop_nil_data (a f tgt : ℝ) (data : List (List ℝ)) (cmds : List Cmd)
    (obs : List Obs) :
    (runLoop a f [] tgt data cmds obs).data = data := by
  rw [runLoop_nil]
  split <;> rfl

lemma runLoop_nil_obs (a f tgt : ℝ) (data : List (List ℝ)) (cmds : List Cmd)
    (obs : List Obs) :
    (runLoop a f [] tgt data cmds obs).obs = obs := by
  rw [runLoop_nil]
  split <;> rfl

lemma runLoop_sensorFail (a f tgt : ℝ) (rest : List IterEvent)
    (data : List (List ℝ)) (cmds : List Cmd) (obs : List Obs) :
    runLoop a f (.sensorFail :: rest) tgt data cmds obs =
      ⟨data, cmds, obs ++ [.readSensor], none, some .sensorIOError⟩ :=
  rfl

lemma runLoop_ok (a f tgt : ℝ) (v : IterOk) (rest : List IterEvent)
    (data : List (List ℝ)) (cmds : List Cmd) (obs : List Obs) :
    runLoop a f (.ok v :: rest) tgt data cmds obs =
      if square v.tdelta f a ≤ a then
        runLoop a f rest (square v.tdelta f a)
          (data ++ [assembleRow v.current v.tdelta v.osensa_temp tgt
            v.cpx_volt v.cpx_curr])
          (cmds ++ [.setVoltage (square v.tdelta f a)])
          (obs ++ okIterObs)
      else
        ⟨data ++ [assembleRow v.current v.tdelta v.osensa_temp tgt
            v.cpx_volt v.cpx_curr],
          cmds,
          obs ++ [.readSensor, .readTemp, .readCpxCurr, .readCpxVolt, .appendRecord],
          none, some .safetyAssert⟩ :=
  rfl

-- Describing an all-successful run prefix ------------------------------------

/-- The value of `cpx_target_voltage` after the given successful iterations,
starting from `tgt`. -/
def lastTarget (freq ampl : ℝ) : List IterOk → ℝ → ℝ
  | [], tgt => tgt
  | v :: vs, _ => lastTarget freq ampl vs (square v.tdelta freq ampl)

/-- The rows appended by the given successful iterations, starting with the
stored target `tgt`. -/
def rowsFrom (freq ampl : ℝ) : List IterOk → ℝ → List (List ℝ)
  | [], _ => []
  | v :: vs, tgt =>
      assembleRow v.current v.tdelta v.osensa_temp tgt v.cpx_volt v.cpx_curr ::
        rowsFrom freq ampl vs (square v.tdelta freq ampl)

/-- The set-voltage commands issued by the given successful iterations. -/
def voltCmds (freq ampl : ℝ) (vs : List IterOk) : List Cmd :=
  vs.map fun v => .setVoltage (square v.tdelta freq ampl)

/-- Repetitions of the per-iteration observation sequence, one per iteration. -/
def okObsRep : ℕ → List Obs
  | 0 => []
  | n + 1 => okIterObs ++ okObsRep n

/-- The target values stored in successive rows: `round3` of the setpoint
computed in the previous iteration (`tgt` before the first one). -/
def targetsFrom (freq ampl : ℝ) : List IterOk → ℝ → List ℝ
  | [], _ => []
  | v :: vs, tgt =>
      round3 tgt :: targetsFrom freq ampl vs (square v.tdelta freq ampl)

lemma rowsFrom_length (freq ampl : ℝ) :
    ∀ (vs : List IterOk) (tgt : ℝ),
      (rowsFrom freq ampl vs tgt).length = vs.length
  | [], _ => rfl
  | v :: vs, tgt => by
    rw [rowsFrom, List.length_cons, List.length_cons,
      rowsFrom_length freq ampl vs]

lemma assembleRow_target (current t temp tgt volt curr : ℝ) :
    (assembleRow current t temp tgt volt curr).getD 4 0 = round3 tgt :=
  rfl

lemma assembleRow_target2 (current t temp tgt volt curr : ℝ) :
    (assembleRow current t temp tgt volt curr)[4]?.getD 0 = round3 tgt :=
  rfl

lemma rowsFrom_targets (freq ampl : ℝ) :
    ∀ (vs : List IterOk) (tgt : ℝ),
      (rowsFrom freq ampl vs tgt).map (fun r => r.getD 4 0) =
        targetsFrom freq ampl vs tgt
  | [], _ => rfl
  | v :: vs, tgt => by
    rw [rowsFrom, targetsFrom, List.map_cons, assembleRow_target,
      rowsFrom_targets freq ampl vs]

lemma runLoop_okSegment (a f : ℝ) (ha : 0 ≤ a) :
    ∀ (vs : List IterOk) (tail : List IterEvent) (tgt : ℝ)
      (data : List (List ℝ)) (cmds : List Cmd) (obs : List Obs),
      runLoop a f (vs.map .ok ++ tail) tgt data cmds obs =
        runLoop a f tail (lastTarget f a vs tgt)
          (data ++ rowsFrom f a vs tgt)
          (cmds ++ voltCmds f a vs)
          (obs ++ okObsRep vs.length)
  | [], tail, tgt, data, cmds, obs => by
    simp [lastTarget, rowsFrom, voltCmds, okObsRep]
  | v :: vs, tail, tgt, data, cmds, obs => by
    rw [List.map_cons, List.cons_append, runLoop_ok,
      if_pos (square_le v.tdelta f a ha),
      runLoop_okSegment a f ha vs tail _ _ _ _]
    simp [lastTarget, rowsFrom, voltCmds, okObsRep, List.append_assoc]

-- Waveform values at the points used below -----------------------------------



lemma square_one_quarter : square 1 (1 / 4) 1 = 1 := by
  have hs : sine 1 (1 / 4) 1 0 0 = 1 := by
    unfold sine
    have h1 : 2 * Real.pi * (1 / 4) * 1 = Real.pi / 2 := by ring
    rw [h1, Real.sin_pi_div_two]
    ring
  unfold square
  rw [hs, round3_one, if_neg (by norm_num)]

lemma square_two_quarter : square 2 (1 / 4) 1 = 0 := by
  have hs : sine 2 (1 / 4) 1 0 0 = 0 := by
    unfold sine
    have h1 : 2 * Real.pi * (1 / 4) * 2 = Real.pi := by ring
    rw [h1, Real.sin_pi]
    ring
  unfold square
  rw [hs, round3_zero, if_pos le_rfl]

-- C7: iteration order and the stored target's one-iteration lag --------------

/-- Claim C7 counterexample: run two iterations with amplitude 1 and frequency
1/4, the sensor timestamps being 1 then 2.  Iteration 1 computes the setpoint
`square(1, 1/4, 1) = 1`; iteration 2 computes `square(2, 1/4, 1) = 0` yet its
appended record stores target 1 — the setpoint of the *previous* iteration —
so the record's `target_voltage` is not "the setpoint computed in that same
iteration" as the claim states. -/
theorem c7_counterexample :
    ((runMeasurement 1 (1 / 4)
        (([⟨0, 1, 0, 0, 0⟩, ⟨0, 2, 0, 0, 0⟩] : List IterOk).map .ok)).data.map
      (fun r => r.getD 4 0)) = [0, 1] ∧
      square 2 (1 / 4) 1 = 0 ∧ (1 : ℝ) ≠ 0 := by
  refine ⟨?_, square_two_quarter, by norm_num⟩
  unfold runMeasurement
  rw [show (([⟨0, 1, 0, 0, 0⟩, ⟨0, 2, 0, 0, 0⟩] : List IterOk).map IterEvent.ok) =
      ([⟨0, 1, 0, 0, 0⟩, ⟨0, 2, 0, 0, 0⟩] : List IterOk).map IterEvent.ok ++ []
    from (List.append_nil _).symm]
  rw [runLoop_okSegment 1 (1 / 4) (by norm_num) _ [] 0 _ _ _, runLoop_nil_data]
  simp only [List.nil_append]
  rw [rowsFrom_targets]
  rw [targetsFrom, targetsFrom, targetsFrom]
  simp only [round3_zero]
  rw [square_one_quarter, round3_one]

/-- Claim C7 (amended): every successful iteration performs, in program order,
the sensor read, the temperature read, the supply read-backs (current then
voltage), the record append, and then the set-voltage command
(`okIterObs`, repeated once per iteration); and the target stored in record
`i` is `round3` of the setpoint computed in iteration `i-1` (the variable's
pre-update value, 0 before the first iteration), i.e. the stored
`target_voltage` lags the same-iteration setpoint by one iteration just as
the read-back voltage does. -/
theorem c7_order_lag_amended (a f : ℝ) (vs : List IterOk) (ha : 0 ≤ a) :
    (runMeasurement a f (vs.map .ok)).obs = okObsRep vs.length ∧
      (runMeasurement a f (vs.map .ok)).data.map (fun r => r.getD 4 0) =
        targetsFrom f a vs 0 := by
  unfold runMeasurement
  rw [show vs.map IterEvent.ok = vs.map IterEvent.ok ++ []
    from (List.append_nil _).symm]
  rw [runLoop_okSegment a f ha vs [] 0 _ _ _]
  constructor
  · rw [runLoop_nil_obs]
    simp
  · rw [runLoop_nil_data]
    simp only [List.nil_append]
    rw [rowsFrom_targets]

/-- The amended C7 statement instantiated at a concrete one-iteration run. -/
theorem c7_order_lag_amended_witness :
    (runMeasurement 1 0 (([⟨0, 0, 0, 0, 0⟩] : List IterOk).map .ok)).obs =
        okObsRep 1 ∧
      (runMeasurement 1 0 (([⟨0, 0, 0, 0, 0⟩] : List IterOk).map .ok)).data.map
          (fun r => r.getD 4 0) =
        targetsFrom 0 1 [⟨0, 0, 0, 0, 0⟩] 0 :=
  c7_order_lag_amended 1 0 [⟨0, 0, 0, 0, 0⟩] (by norm_num)

-- C10: the first record's stored target --------------------------------------

lemma runLoop_dataExtends (a f : ℝ) :
    ∀ (events : List IterEvent) (tgt : ℝ) (data : List (List ℝ))
      (cmds : List Cmd) (obs : List Obs),
      ∃ s, (runLoop a f events tgt data cmds obs).data = data ++ s
  | [], tgt, data, cmds, obs => ⟨[], by rw [runLoop_nil_data, List.append_nil]⟩
  | .sensorFail :: rest, tgt, data, cmds, obs =>
      ⟨[], by rw [runLoop_sensorFail, List.append_nil]⟩
  | .ok v :: rest, tgt, data, cmds, obs => by
    rw [runLoop_ok]
    by_cases h : square v.tdelta f a ≤ a
    · rw [if_pos h]
      obtain ⟨s, hs⟩ := runLoop_dataExtends a f rest (square v.tdelta f a)
        (data ++ [assembleRow v.current v.tdelta v.osensa_temp tgt
          v.cpx_volt v.cpx_curr])
        (cmds ++ [.setVoltage (square v.tdelta f a)]) (obs ++ okIterObs)
      exact ⟨[assembleRow v.current v.tdelta v.osensa_temp tgt
          v.cpx_volt v.cpx_curr] ++ s,
        by rw [hs, List.append_assoc]⟩
    · rw [if_neg h]
      exact ⟨[assembleRow v.current v.tdelta v.osensa_temp tgt
        v.cpx_volt v.cpx_curr], rfl⟩

/-- Claim C10: whenever the run performs at least one iteration (so at least
one record exists), the first record's stored target value is 0, for every
amplitude and frequency: line 151 stores the pre-update value of
`cpx_target_voltage`, which line 141 initializes to 0, and the waveform is
only computed afterwards (line 157). -/
theorem c10_first_target_zero (a f : ℝ) (v : IterOk) (rest : List IterEvent) :
    ((runMeasurement a f (.ok v :: rest)).data.head?.map
      (fun r => r.getD 4 0)) = some 0 := by
  unfold runMeasurement
  rw [runLoop_ok]
  by_cases h : square v.tdelta f a ≤ a
  · rw [if_pos h]
    obtain ⟨s, hs⟩ := runLoop_dataExtends a f rest (square v.tdelta f a)
      ([] ++ [assembleRow v.current v.tdelta v.osensa_temp 0
        v.cpx_volt v.cpx_curr])
      ([.setOutput 1, .setCurrent 20, .setVoltage 0] ++
        [.setVoltage (square v.tdelta f a)])
      ([] ++ okIterObs)
    rw [hs]
    simp
    rw [assembleRow_target2, round3_zero]
  · rw [if_neg h]
    simp
    rw [assembleRow_target2, round3_zero]

-- C3: behaviour on a mid-run fatal sensor failure ----------------------------

/-- Claim C3 counterexample: with amplitude 1, after two successful iterations
the third iteration's sensor read fails.  The claim requires the partial
result table of the first 2 records to still be reported/exported; instead the
run exports nothing (`exported = none` — the exception propagates past lines
169–183, so no DataFrame is built and no file is written), even though the
2 records do sit in the in-memory list. -/
theorem c3_counterexample :
    (runMeasurement 1 0
        [.ok ⟨0, 0, 0, 0, 0⟩, .ok ⟨0, 0, 0, 0, 0⟩, .sensorFail]).exported =
        none ∧
      (runMeasurement 1 0
        [.ok ⟨0, 0, 0, 0, 0⟩, .ok ⟨0, 0, 0, 0, 0⟩, .sensorFail]).data.length =
        2 := by
  rw [show ([.ok ⟨0, 0, 0, 0, 0⟩, .ok ⟨0, 0, 0, 0, 0⟩, .sensorFail] :
      List IterEvent) =
      ([⟨0, 0, 0, 0, 0⟩, ⟨0, 0, 0, 0, 0⟩] : List IterOk).map .ok ++
        .sensorFail :: [] from rfl]
  unfold runMeasurement
  rw [runLoop_okSegment 1 0 (by norm_num) _ _ 0 _ _ _, runLoop_sensorFail]
  exact ⟨rfl, by simp [rowsFrom_length]⟩

/-- Claim C3 (amended): a fatal sensor-read failure after `n` successful
iterations aborts the run with the I/O error; the `n` records appended before
the failure remain in the in-memory list (exactly 2 of them when the failure
hits iteration 3), but nothing is exported or reported — the partial results
are lost to the user rather than surfaced. -/
theorem c3_abort_amended (a f : ℝ) (vs : List IterOk) (rest : List IterEvent)
    (ha : 0 ≤ a) :
    (runMeasurement a f (vs.map .ok ++ .sensorFail :: rest)).exported = none ∧
      (runMeasurement a f (vs.map .ok ++ .sensorFail :: rest)).error =
        some .sensorIOError ∧
      (runMeasurement a f (vs.map .ok ++ .sensorFail :: rest)).data.length =
        vs.length := by
  unfold runMeasurement
  rw [runLoop_okSegment a f ha vs (.sensorFail :: rest) 0 _ _ _,
    runLoop_sensorFail]
  exact ⟨rfl, rfl, by simp [rowsFrom_length]⟩

/-- The amended C3 statement at a concrete one-good-iteration run. -/
theorem c3_abort_amended_witness :
    (runMeasurement 1 0 (([⟨0, 0, 0, 0, 0⟩] : List IterOk).map .ok ++
        .sensorFail :: [])).exported = none ∧
      (runMeasurement 1 0 (([⟨0, 0, 0, 0, 0⟩] : List IterOk).map .ok ++
        .sensorFail :: [])).error = some .sensorIOError ∧
      (runMeasurement 1 0 (([⟨0, 0, 0, 0, 0⟩] : List IterOk).map .ok ++
        .sensorFail :: [])).data.length = 1 :=
  c3_abort_amended 1 0 [⟨0, 0, 0, 0, 0⟩] [] (by norm_num)

-- C2: the shutdown sequence ---------------------------------------------------

/-- The command trace ends with `set_voltage(0)` followed by
`set_output(0)` — the shutdown sequence of lines 193–194. -/
def endsWithShutdown (l : List Cmd) : Prop :=
  l.reverse.take 2 = [.setOutput 0, .setVoltage 0]

lemma runLoop_shutdown (a f : ℝ) :
    ∀ (events : List IterEvent) (tgt : ℝ) (data : List (List ℝ))
      (cmds : List Cmd) (obs : List Obs), Cmd.setOutput 0 ∉ cmds →
      ((runLoop a f events tgt data cmds obs).error = none →
          endsWithShutdown (runLoop a f events tgt data cmds obs).cmds) ∧
        ((runLoop a f events tgt data cmds obs).error ≠ none →
          Cmd.setOutput 0 ∉ (runLoop a f events tgt data cmds obs).cmds)
  | [], tgt, data, cmds, obs, hc => by
    by_cases hlen : data.length ≤ 1
    · rw [runLoop_nil_small a f tgt data cmds obs hlen]
      exact ⟨fun h => by simp at h, fun _ => hc⟩
    · rw [runLoop_nil_two a f tgt data cmds obs (by omega)]
      refine ⟨fun _ => ?_, fun h => absurd rfl h⟩
      unfold endsWithShutdown
      rw [List.reverse_append]
      rfl
  | .sensorFail :: rest, tgt, data, cmds, obs, hc => by
    rw [runLoop_sensorFail]
    exact ⟨fun h => by simp at h, fun _ => hc⟩
  | .ok v :: rest, tgt, data, cmds, obs, hc => by
    rw [runLoop_ok]
    by_cases h : square v.tdelta f a ≤ a
    · rw [if_pos h]
      refine runLoop_shutdown a f rest (square v.tdelta f a) _ _ _ ?_
      intro hmem
      rcases List.mem_append.mp hmem with h1 | h2
      · exact hc h1
      · simp at h2
    · rw [if_neg h]
      exact ⟨fun hcontra => by simp at hcontra, fun _ => hc⟩

/-- Claim C2 counterexample: a run whose very first sensor read fails raises
an I/O error, and the command trace the voltage source received is only the
setup sequence — in particular `set_output(0)` is never sent (and the final
`set_voltage(0)` of line 193 never runs either): lines 193–194 sit after the
loop with no `try`/`finally`, so no shutdown happens on the error path, contra
the claim that it happens on every exit path. -/
theorem c2_counterexample :
    (runMeasurement 1 0 [.sensorFail]).error = some .sensorIOError ∧
      Cmd.setOutput 0 ∉ (runMeasurement 1 0 [.sensorFail]).cmds := by
  refine ⟨rfl, ?_⟩
  rw [show (runMeasurement 1 0 [.sensorFail]).cmds =
      [.setOutput 1, .setCurrent 20, .setVoltage 0] from rfl]
  simp

/-- Claim C2 (amended): the shutdown sequence `set_voltage(0)` then
`set_output(0)` runs exactly when the run ends without error — the loop
completes normally and the post-loop statistics succeed (at least two rows, so
`reading_period` does not divide by zero).  On any fatal error — one raised
during the loop, or the `ZeroDivisionError` that `reading_period` raises at
line 188 when the loop exits normally with fewer than two rows (after the
export of line 183 but before lines 193–194) — the shutdown does not run: the
output-disable command in particular is never issued on an error path (the
only `set_output` the source ever received is the enabling `set_output(1)`
from setup). -/
theorem c2_shutdown_amended (a f : ℝ) (events : List IterEvent) :
    ((runMeasurement a f events).error = none →
        endsWithShutdown (runMeasurement a f events).cmds) ∧
      ((runMeasurement a f events).error ≠ none →
        Cmd.setOutput 0 ∉ (runMeasurement a f events).cmds) :=
  runLoop_shutdown a f events 0 []
    [.setOutput 1, .setCurrent 20, .setVoltage 0] [] (by simp)

/-- The amended C2 statement at a two-iteration run that completes normally
(two rows, so the statistics succeed and the shutdown runs). -/
theorem c2_shutdown_amended_witness :
    endsWithShutdown (runMeasurement 1 0
      (([⟨0, 0, 0, 0, 0⟩, ⟨0, 0, 0, 0, 0⟩] : List IterOk).map .ok)).cmds := by
  refine (c2_shutdown_amended 1 0 _).1 ?_
  unfold runMeasurement
  rw [show (([⟨0, 0, 0, 0, 0⟩, ⟨0, 0, 0, 0, 0⟩] : List IterOk).map
        IterEvent.ok) =
      ([⟨0, 0, 0, 0, 0⟩, ⟨0, 0, 0, 0, 0⟩] : List IterOk).map IterEvent.ok ++ []
    from (List.append_nil _).symm]
  rw [runLoop_okSegment 1 0 (by norm_num) _ [] 0 _ _ _]
  rw [runLoop_nil_two 1 0 _ _ _ _ (by simp [rowsFrom_length])]

-- C5: the safety assert is unreachable only for nonnegative amplitudes -------

/-- Claim C5 counterexample: the amplitude `-1` passes the startup check of
line 42 (`volt_ampl <= 23`), yet the very first iteration computes the
setpoint `square(0, f, -1) = 0`, the per-iteration check `0 <= -1` fails, and
the run aborts via the safety assert — so the claimed unreachability of the
failure branch under the precondition `amplitude ≤ 23` is false. -/
theorem c5_counterexample :
    ((-1 : ℝ) ≤ 23) ∧
      (runMeasurement (-1) 0 [.ok ⟨0, 0, 0, 0, 0⟩]).error =
        some .safetyAssert := by
  refine ⟨by norm_num, ?_⟩
  unfold runMeasurement
  rw [runLoop_ok]
  have hneg : ¬ square ((⟨0, 0, 0, 0, 0⟩ : IterOk).tdelta) 0 (-1) ≤ (-1 : ℝ) := by
    rw [show ((⟨0, 0, 0, 0, 0⟩ : IterOk).tdelta) = (0 : ℝ) from rfl,
      square_tdelta_zero]
    norm_num
  rw [if_neg hneg]

lemma runLoop_safe (a f : ℝ) (h0 : 0 ≤ a) (h23 : a ≤ 23) :
    ∀ (events : List IterEvent) (tgt : ℝ) (data : List (List ℝ))
      (cmds : List Cmd) (obs : List Obs),
      (∀ x, Cmd.setVoltage x ∈ cmds → |x| ≤ 23) →
      (runLoop a f events tgt data cmds obs).error ≠ some .safetyAssert ∧
        ∀ x, Cmd.setVoltage x ∈ (runLoop a f events tgt data cmds obs).cmds →
          |x| ≤ 23
  | [], tgt, data, cmds, obs, hc => by
    by_cases hlen : data.length ≤ 1
    · rw [runLoop_nil_small a f tgt data cmds obs hlen]
      exact ⟨by simp, hc⟩
    · rw [runLoop_nil_two a f tgt data cmds obs (by omega)]
      refine ⟨by simp, fun x hx => ?_⟩
      rcases List.mem_append.mp hx with h | h
      · exact hc x h
      · rcases List.mem_cons.mp h with h1 | h2
        · have hx0 : x = 0 := by injection h1
          rw [hx0]
          norm_num
        · simp at h2
  | .sensorFail :: rest, tgt, data, cmds, obs, hc => by
    rw [runLoop_sensorFail]
    exact ⟨by simp, hc⟩
  | .ok v :: rest, tgt, data, cmds, obs, hc => by
    rw [runLoop_ok, if_pos (square_le v.tdelta f a h0)]
    refine runLoop_safe a f h0 h23 rest (square v.tdelta f a) _ _ _ ?_
    intro x hx
    rcases List.mem_append.mp hx with h | h
    · exact hc x h
    · rcases List.mem_cons.mp h with h1 | h2
      · have hx0 : x = square v.tdelta f a := by injection h1
        rw [hx0]
        exact square_abs_le v.tdelta f a h0 h23
      · simp at h2

/-- Claim C5 (amended): under the stronger precondition `0 ≤ amplitude ≤ 23`
(the startup check of line 42 alone admits negative amplitudes, for which the
first iteration already trips the assert — see the counterexample), the
per-iteration safety check never fails on any run, and every voltage the
source is ever commanded satisfies `|v| ≤ 23`. -/
theorem c5_safety_amended (a f : ℝ) (events : List IterEvent)
    (h0 : 0 ≤ a) (h23 : a ≤ 23) :
    (runMeasurement a f events).error ≠ some .safetyAssert ∧
      ∀ x, Cmd.setVoltage x ∈ (runMeasurement a f events).cmds → |x| ≤ 23 := by
  refine runLoop_safe a f h0 h23 events 0 []
    [.setOutput 1, .setCurrent 20, .setVoltage 0] [] ?_
  intro x hx
  rcases List.mem_cons.mp hx with h1 | hx2
  · exact absurd h1 (by simp)
  rcases List.mem_cons.mp hx2 with h2 | hx3
  · exact absurd h2 (by simp)
  rcases List.mem_cons.mp hx3 with h3 | hx4
  · have hx0 : x = 0 := by injection h3
    rw [hx0]
    norm_num
  · simp at hx4

/-- The amended C5 statement at a concrete admissible amplitude. -/
theorem c5_safety_amended_witness :
    (runMeasurement 1 0 [.ok ⟨0, 0, 0, 0, 0⟩]).error ≠
      some RunError.safetyAssert :=
  (c5_safety_amended 1 0 [.ok ⟨0, 0, 0, 0, 0⟩] (by norm_num) (by norm_num)).1
